import Mathlib

/-!
Shallow embedding of `visualize_backtest.py` (LeanBot repository).

The script converts a trading-strategy backtest result (a JSON
statistics/series dump plus an order-events log) into a static HTML
report.  Numeric values are modelled by `ℚ` (the script manipulates
decimal constants well inside the regime where IEEE doubles and exact
rationals format identically); JSON dictionaries are modelled by
association lists that preserve insertion order, matching Python dicts.
-/

set_option maxRecDepth 16384

namespace VisualizeBacktest

/-- Value of a base-10 digit character. -/
def digitVal (c : Char) : ℕ := c.toNat - 48

/-- Natural number denoted by a list of digit characters (most significant first). -/
def digitsToNat (cs : List Char) : ℕ :=
  cs.foldl (fun a c => a * 10 + digitVal c) 0

/-- Decimal rendering of `n`, left-padded with zeros to width `k`. -/
def padZeros (k : ℕ) (n : ℕ) : String :=
  let s := toString n
  String.mk (List.replicate (k - s.length) '0') ++ s

/-- Floor of a rational, computed on the numerator/denominator pair. -/
def ratFloor (q : ℚ) : ℤ := q.num.fdiv q.den

/-- Round to the nearest integer, ties to even — the rounding Python's
fixed-point string formatting applies. -/
def roundHalfEven (q : ℚ) : ℤ :=
  let f := ratFloor q
  let r : ℚ := q - (f : ℚ)
  if r < 1/2 then f
  else if r > 1/2 then f + 1
  else if f % 2 = 0 then f else f + 1

/-- Insert a comma after every third character; the input and output digit
lists are reversed (least significant digit first). -/
def groupRev : List Char → List Char
  | a :: b :: c :: d :: rest => a :: b :: c :: ',' :: groupRev (d :: rest)
  | l => l
termination_by l => l.length

/-- Thousands grouping of a digit string, as Python's `,` format modifier. -/
def groupDigits (s : String) : String :=
  String.mk (groupRev s.toList.reverse).reverse

/-- Fixed-point rendering of a rational with `dp` decimal places, the model of
Python's `f"{x:.<dp>f}"` (and `f"{x:,.<dp>f}"` when `grouped` is set). -/
def renderFixed (grouped : Bool) (dp : ℕ) (q : ℚ) : String :=
  let scaled := roundHalfEven (q * (10 ^ dp : ℚ))
  let mag := scaled.natAbs
  let ip := mag / 10 ^ dp
  let fp := mag % 10 ^ dp
  let ipStr := if grouped then groupDigits (toString ip) else toString ip
  (if q < 0 then "-" else "") ++ ipStr ++
    (if dp = 0 then "" else "." ++ padZeros dp fp)

/-- A Python value as found in the statistics mapping: a string or a number.
Numbers are modelled exactly by rationals. -/
inductive PyVal where
  | str (s : String)
  | num (q : ℚ)
deriving DecidableEq

/-- Python truthiness for the modelled values: the empty string and zero are
falsy, everything else truthy. -/
def PyVal.truthy : PyVal → Bool
  | .str s => !s.isEmpty
  | .num q => decide (q ≠ 0)

/-- Python `float()` on a decimal string literal: optional sign, then digits
with at most one decimal point and at least one digit.  (Scientific notation,
`inf`/`nan` and surrounding whitespace are outside the model; no statistic in
scope uses them.)  Returns `none` when coercion raises `ValueError`. -/
def pyParseFloat (s : String) : Option ℚ :=
  let cs := s.toList
  let signAndRest : ℚ × List Char :=
    match cs with
    | '-' :: r => (-1, r)
    | '+' :: r => (1, r)
    | r => (1, r)
  let sg := signAndRest.1
  let rest := signAndRest.2
  let ipart := rest.takeWhile Char.isDigit
  let rest2 := rest.dropWhile Char.isDigit
  match rest2 with
  | [] =>
      if ipart.isEmpty then none
      else some (sg * (digitsToNat ipart : ℚ))
  | '.' :: fpart =>
      if fpart.all Char.isDigit && !(ipart.isEmpty && fpart.isEmpty) then
        some (sg * ((digitsToNat ipart : ℚ) +
          (digitsToNat fpart : ℚ) / (10 ^ fpart.length : ℚ)))
      else none
  | _ => none

/-- Python `float(value)` on a modelled value: numbers coerce to themselves,
strings are parsed.  `none` models a raised `ValueError`/`TypeError`. -/
def pyFloat : PyVal → Option ℚ
  | .num q => some q
  | .str s => pyParseFloat s

/-- Substring test: `strContains s pat` models Python's `pat in s`. -/
def strContains (s pat : String) : Bool :=
  let sl := s.toList
  let pl := pat.toList
  (List.range (sl.length + 1)).any (fun i => pl.isPrefixOf (sl.drop i))

/-- `any(x in key.lower() for x in kws)` — case-insensitive keyword test. -/
def containsAny (key : String) (kws : List String) : Bool :=
  kws.any (fun x => strContains key.toLower x)

/-- Keywords whose presence in a (lowercased) statistic name selects the
percentage formatting branch of `format_stat_value`. -/
def pctKeywords : List String :=
  ["rate", "return", "ratio", "drawdown", "variance", "turnover", "deviation"]

/-- Keywords selecting the currency formatting branch of `format_stat_value`. -/
def currencyKeywords : List String := ["equity", "fees", "capacity"]

/-- `format_stat_value(key, value)`: format statistics values for display.
Percentage branch: `f"{float(value):.2%}" if value else "0.00%"`, falling back
to the raw value when `float` raises.  Currency branch: `f"${float(value):,.2f}"`.
Otherwise plain number: 4 decimals when `abs` is below 100, else 2 decimals
with thousands separators; non-coercible values pass through. -/
def format_stat_value (key : String) (value : PyVal) : PyVal :=
  if containsAny key pctKeywords then
    if !value.truthy then .str "0.00%"
    else
      match pyFloat value with
      | some q => .str (renderFixed false 2 (q * 100) ++ "%")
      | none => value
  else if containsAny key currencyKeywords then
    match pyFloat value with
    | some q => .str ("$" ++ renderFixed true 2 q)
    | none => value
  else
    match pyFloat value with
    | some q => .str (if |q| < 100 then renderFixed false 4 q else renderFixed true 2 q)
    | none => value

/-! ## Order events and the trade filter (`load_order_events`) -/

/-- One entry of the order-events JSON array.  Fields the script reads with
`dict.get` (which returns `None` when absent) are `Option`s; fields read by
subscripting (a `KeyError` on absence) are required. -/
structure OrderEvent where
  orderId : ℤ
  time : ℤ
  status : Option String
  symbolValue : Option String
  symbol : Option String
  direction : String
  fillQuantity : ℚ
  fillPrice : ℚ
  orderFeeAmount : Option ℚ
deriving DecidableEq

/-- `[e for e in events if e.get('status') == 'filled']` — the trade filter. -/
def filterFilledOrders (events : List OrderEvent) : List OrderEvent :=
  events.filter fun e => decide (e.status = some "filled")

/-- Outcome of locating and parsing the order-events file: the file may be
absent, present but not valid JSON, or parsed into an events array. -/
inductive OrderEventsSource where
  | missing
  | unparsable
  | events (l : List OrderEvent)
deriving DecidableEq

/-- `load_order_events`: a missing file yields `[]` with a warning; a file that
fails to load/parse yields `[]` with a warning; otherwise the filled-order
filter is applied to the parsed array. -/
def load_order_events : OrderEventsSource → List OrderEvent
  | .missing => []
  | .unparsable => []
  | .events l => filterFilledOrders l

/-! ## The backtest result document and series extraction -/

/-- A named series inside a chart: raw JSON rows (lists of numbers). -/
structure BtSeries where
  values : List (List ℚ)
deriving DecidableEq

/-- A chart: mapping of series name to series, insertion-ordered. -/
structure BtChart where
  series : List (String × BtSeries)
deriving DecidableEq

/-- `algorithmConfiguration`: object with an optional `name` field. -/
structure AlgoConfig where
  name : Option String
deriving DecidableEq

/-- The root result document.  `strategyName`/`strategyNameDashed` model the
optional `'strategyName'` / `'strategy-name'` keys probed with `in`. -/
structure BacktestResult where
  statistics : List (String × PyVal)
  charts : List (String × BtChart)
  algorithmConfiguration : AlgoConfig
  strategyName : Option PyVal
  strategyNameDashed : Option PyVal
deriving DecidableEq

/-- First-match association-list lookup, the model of Python dict access
(dict keys are unique, so first match is the match). -/
def lookupKey (m : List (String × α)) (k : String) : Option α :=
  (m.find? fun p => p.1 = k).map (·.2)

/-- Errors raised during series extraction: a missing chart or series key
(Python `KeyError`) or a row of the wrong width (pandas shape error). -/
inductive ExtractError where
  | missingChart (chart : String)
  | missingSeries (chart seriesName : String)
  | badRow (chart : String)
deriving DecidableEq

/-- Project one five-column OHLC row to its (timestamp, close) pair. -/
def ohlcRowToPoint : List ℚ → Option (ℚ × ℚ)
  | [t, _, _, _, c] => some (t, c)
  | _ => none

/-- Project one two-column row to a (timestamp, value) pair. -/
def pairRowToPoint : List ℚ → Option (ℚ × ℚ)
  | [t, v] => some (t, v)
  | _ => none

/-- `extract_equity_series`: read
`data['charts']['Strategy Equity']['series']['Equity']['values']` and project
each `[timestamp, open, high, low, close]` row to (timestamp, close).
(The pandas epoch-seconds→date conversion is presentational and kept as the
raw timestamp here.)  Errors model the uncaught `KeyError`/shape failures. -/
def extract_equity_series (data : BacktestResult) :
    Except ExtractError (List (ℚ × ℚ)) :=
  match lookupKey data.charts "Strategy Equity" with
  | none => .error (.missingChart "Strategy Equity")
  | some ch =>
    match lookupKey ch.series "Equity" with
    | none => .error (.missingSeries "Strategy Equity" "Equity")
    | some s =>
      match s.values.mapM ohlcRowToPoint with
      | none => .error (.badRow "Strategy Equity")
      | some pts => .ok pts

/-- `extract_drawdown_series`: read
`data['charts']['Drawdown']['series']['Equity Drawdown']['values']` as
(timestamp, drawdown) pairs. -/
def extract_drawdown_series (data : BacktestResult) :
    Except ExtractError (List (ℚ × ℚ)) :=
  match lookupKey data.charts "Drawdown" with
  | none => .error (.missingChart "Drawdown")
  | some ch =>
    match lookupKey ch.series "Equity Drawdown" with
    | none => .error (.missingSeries "Drawdown" "Equity Drawdown")
    | some s =>
      match s.values.mapM pairRowToPoint with
      | none => .error (.badRow "Drawdown")
      | some pts => .ok pts

/-! ## Folder-name parsing: strategy name and run timestamp -/

/-- Does a 16-character tail have the shape `-DDDDDDDD-DDDDDD` (the regex
`-\d{8}-\d{6}$` — being of fixed width, the regex matches exactly when the
last 16 characters have this shape)? -/
def tsSuffixMatch : List Char → Bool
  | ['-', a, b, c, d, e, f, g, h, '-', p, q, r, s, t, u] =>
      [a, b, c, d, e, f, g, h, p, q, r, s, t, u].all Char.isDigit
  | _ => false

/-- `re.sub(r'-\d{8}-\d{6}$', '', folder_name)` — strip the trailing
timestamp suffix when present (used by `load_order_events`,
`generate_html_report` and `find_json_file`). -/
def stripTimestampSuffix (name : String) : String :=
  let cs := name.toList
  if tsSuffixMatch (cs.drop (cs.length - 16)) then
    String.mk (cs.take (cs.length - 16))
  else name

/-- Gregorian leap-year rule. -/
def isLeap (y : ℕ) : Bool := (y % 4 == 0 && y % 100 != 0) || y % 400 == 0

/-- Days in a month of the proleptic Gregorian calendar. -/
def daysInMonth (y m : ℕ) : ℕ :=
  if m = 2 then (if isLeap y then 29 else 28)
  else if m = 4 ∨ m = 6 ∨ m = 9 ∨ m = 11 then 30
  else 31

/-- Validity of the 6 components, as `datetime.strptime` with
`"%Y%m%d%H%M%S"` checks them (`datetime` years run 1..9999). -/
def validDateTime (y mo d hh mi ss : ℕ) : Bool :=
  1 ≤ y && y ≤ 9999 && 1 ≤ mo && mo ≤ 12 && 1 ≤ d && d ≤ daysInMonth y mo &&
  hh ≤ 23 && mi ≤ 59 && ss ≤ 59

/-- `re.search(r'-(\d{8})-(\d{6})$', folder_name)` followed by
`strptime`/`strftime`: when the suffix matches and denotes a valid calendar
date-time, render it as `"YYYY-MM-DD HH:MM:SS"`, else `"N/A"`.  The rendering
reuses the matched digit characters; this coincides with `strftime` whenever
the year has four significant digits (years ≥ 1000, the `YYYY` convention). -/
def deriveRunTime (folderName : String) : String :=
  let cs := folderName.toList
  let suf := cs.drop (cs.length - 16)
  if tsSuffixMatch suf then
    let ds := (suf.drop 1).take 8
    let ts := suf.drop 10
    if validDateTime (digitsToNat (ds.take 4)) (digitsToNat ((ds.drop 4).take 2))
        (digitsToNat (ds.drop 6)) (digitsToNat (ts.take 2))
        (digitsToNat ((ts.drop 2).take 2)) (digitsToNat (ts.drop 4)) then
      String.mk (ds.take 4) ++ "-" ++ String.mk ((ds.drop 4).take 2) ++ "-" ++
        String.mk (ds.drop 6) ++ " " ++ String.mk (ts.take 2) ++ ":" ++
        String.mk ((ts.drop 2).take 2) ++ ":" ++ String.mk (ts.drop 4)
    else "N/A"
  else "N/A"

/-- `Path(p).name`: the final non-empty path component. -/
def folderBaseName (p : String) : String :=
  String.mk (((p.toList.splitOn '/').filter fun l => !l.isEmpty).getLastD [])

/-! ## Strategy-name resolution (`generate_html_report`, lines 163–182) -/

/-- Python truthiness of the intermediate `strategy_name` variable, which is
either `None` or a value from the document / a derived string. -/
def falsyOptStr : Option String → Bool
  | none => true
  | some s => s.isEmpty

/-- Render a modelled Python value into the string context of an f-string. -/
def pyValStr : PyVal → String
  | .str s => s
  | .num q =>
      if q.den = 1 then
        (if q.num < 0 then "-" else "") ++ toString q.num.natAbs ++ ".0"
      else
        match (List.range 18).find? (fun k => (10 ^ k : ℕ) % q.den == 0) with
        | some k =>
            let mag := q.num.natAbs * (10 ^ k / q.den)
            let ip := mag / 10 ^ k
            let fpDigits := (padZeros k (mag % 10 ^ k)).toList
            let trimmed := (fpDigits.reverse.dropWhile (· == '0')).reverse
            (if q.num < 0 then "-" else "") ++ toString ip ++ "." ++
              (if trimmed.isEmpty then "0" else String.mk trimmed)
        | none => toString q.num ++ "/" ++ toString q.den

/-- The document value that `strategy_name` is first set from: the
`'strategyName'` key when present, else the `'strategy-name'` key.
`none` models the Python variable still being `None`. -/
def explicitStrategyField (data : BacktestResult) : Option String :=
  match data.strategyName with
  | some v => some (pyValStr v)
  | none =>
    match data.strategyNameDashed with
    | some v => some (pyValStr v)
    | none => none

/-- Lines 163–182 of `generate_html_report`: resolve the displayed strategy
name.  `resultsFolder` is the optional `results_folder` argument (a path). -/
def resolveStrategyName (data : BacktestResult) (resultsFolder : Option String) :
    String :=
  let s0 : Option String := explicitStrategyField data
  let s1 : Option String :=
    if falsyOptStr s0 then
      match resultsFolder with
      | some folder => some (stripTimestampSuffix (folderBaseName folder))
      | none => s0
    else s0
  if falsyOptStr s1 then
    match data.algorithmConfiguration.name with
    | some v => v
    | none => "N/A"
  else s1.getD ""

/-! ## Statistics classification (`generate_html_report`, lines 201–213) -/

/-- Keywords routing a statistic to the Performance bucket. -/
def perfKeywords : List String :=
  ["return", "profit", "alpha", "beta", "information"]

/-- Keywords routing a statistic to the Risk bucket. -/
def riskKeywords : List String :=
  ["sharpe", "sortino", "drawdown", "variance", "deviation", "risk"]

/-- The three statistic buckets. -/
inductive StatBucket where
  | performance
  | risk
  | trade
deriving DecidableEq

/-- The `if`/`elif`/`else` keyword dispatch on the lowercased statistic name. -/
def classifyStat (key : String) : StatBucket :=
  if containsAny key perfKeywords then .performance
  else if containsAny key riskKeywords then .risk
  else .trade

/-- The categorization loop: each `(key, value)` of the statistics mapping is
appended, formatted, to exactly one of the three bucket dicts according to
`classifyStat`.  (Functional rendering of the single `for` loop: each bucket
receives, in order, the entries the loop routes to it.) -/
def categorizeStats (stats : List (String × PyVal)) :
    List (String × PyVal) × List (String × PyVal) × List (String × PyVal) :=
  ((stats.filter fun kv => decide (classifyStat kv.1 = .performance)).map
     (fun kv => (kv.1, format_stat_value kv.1 kv.2)),
   (stats.filter fun kv => decide (classifyStat kv.1 = .risk)).map
     (fun kv => (kv.1, format_stat_value kv.1 kv.2)),
   (stats.filter fun kv => decide (classifyStat kv.1 = .trade)).map
     (fun kv => (kv.1, format_stat_value kv.1 kv.2)))

/-! ## Epoch-seconds to calendar date-time (for the trade ledger rows) -/

/-- Civil date from a count of days since 1970-01-01 (proleptic Gregorian).
Standard era-based conversion; all divisions act on non-negative values. -/
def civilFromDays (z0 : ℤ) : ℤ × ℤ × ℤ :=
  let z := z0 + 719468
  let era := z.fdiv 146097
  let doe := z - era * 146097
  let yoe := (doe - doe / 1460 + doe / 36524 - doe / 146096) / 365
  let y := yoe + era * 400
  let doy := doe - (365 * yoe + yoe / 4 - yoe / 100)
  let mp := (5 * doy + 2) / 153
  let d := doy - (153 * mp + 2) / 5 + 1
  let m := mp + (if mp < 10 then 3 else -9)
  (if m ≤ 2 then y + 1 else y, m, d)

/-- `datetime.fromtimestamp(t).strftime('%Y-%m-%d %H:%M:%S')` for integer
epoch seconds.  (`fromtimestamp` applies the machine's local timezone; the
model fixes the zone to UTC — the claims in scope do not depend on it.) -/
def epochToDateTimeString (t : ℤ) : String :=
  let days := t.fdiv 86400
  let secs := (t - days * 86400).toNat
  let ymd := civilFromDays days
  padZeros 4 ymd.1.toNat ++ "-" ++ padZeros 2 ymd.2.1.toNat ++ "-" ++
    padZeros 2 ymd.2.2.toNat ++ " " ++ padZeros 2 (secs / 3600) ++ ":" ++
    padZeros 2 (secs % 3600 / 60) ++ ":" ++ padZeros 2 (secs % 60)

/-! ## HTML assembly (`generate_html_report`, lines 215–464) -/

/-- One formatted statistic as a stat-card item (the f-string of the three
`''.join` list comprehensions). -/
def statItemHtml (kv : String × PyVal) : String :=
  "<div class=\"stat-item\"><span class=\"stat-label\">" ++ kv.1 ++
    "</span><span class=\"stat-value\">" ++ pyValStr kv.2 ++ "</span></div>"

/-- One raw statistic as a row of the All Statistics table. -/
def statRowHtml (kv : String × PyVal) : String :=
  "<tr><td>" ++ kv.1 ++ "</td><td>" ++ pyValStr kv.2 ++ "</td></tr>"

/-- One trade of the ledger (the per-trade f-string, lines 235–258). -/
def tradeRowHtml (trade : OrderEvent) : String :=
  let tradeTime := epochToDateTimeString trade.time
  let symbol := trade.symbolValue.getD (trade.symbol.getD "N/A")
  let direction := trade.direction.toUpper
  let quantity := trade.fillQuantity
  let fillPrice := trade.fillPrice
  let totalValue := |quantity * fillPrice|
  let fee := trade.orderFeeAmount.getD 0
  let directionClass := if direction = "BUY" then "buy" else "sell"
  "\n                <tr class=\"" ++ directionClass ++ "\">\n                    <td>" ++
    toString trade.orderId ++ "</td>\n                    <td>" ++ tradeTime ++
    "</td>\n                    <td>" ++ symbol ++
    "</td>\n                    <td><strong>" ++ direction ++
    "</strong></td>\n                    <td>" ++ renderFixed true 0 quantity ++
    "</td>\n                    <td>$" ++ renderFixed true 2 fillPrice ++
    "</td>\n                    <td>$" ++ renderFixed true 2 totalValue ++
    "</td>\n                    <td>$" ++ renderFixed true 2 fee ++
    "</td>\n                </tr>\n"

/-- Opening of the trade ledger table. -/
def tradesTableHead : String :=
  "\n        <h2>📋 All Trades</h2>\n        <table>\n            <thead>\n                <tr>\n                    <th>Order ID</th>\n                    <th>Time</th>\n                    <th>Symbol</th>\n                    <th>Direction</th>\n                    <th>Quantity</th>\n                    <th>Fill Price</th>\n                    <th>Total Value</th>\n                    <th>Fee</th>\n                </tr>\n            </thead>\n            <tbody>\n"

/-- Closing of the trade ledger table. -/
def tradesTableTail : String :=
  "\n            </tbody>\n        </table>\n"

/-- The placeholder block used when the trade list is empty. -/
def noTradeDataHtml : String :=
  "\n        <h2>📋 All Trades</h2>\n        <p style=\"color: #7f8c8d; text-align: center; padding: 20px;\">No trade data available</p>\n"

/-- `trades_html` (lines 216–268): the ledger table when trades exist, the
placeholder otherwise. -/
def tradesHtmlOf (trades : List OrderEvent) : String :=
  if trades.isEmpty then noTradeDataHtml
  else tradesTableHead ++ String.join (trades.map tradeRowHtml) ++ tradesTableTail

/-- The literal `<style>` element body of the report template (the f-string's
doubled braces denote literal braces, written here as escapes). -/
def reportCss : String :=
  "        body \x7b\n            font-family: 'Segoe UI', Tahoma, Geneva, Verdana, sans-serif;\n            margin: 0;\n            padding: 20px;\n            background-color: #f5f5f5;\n        \x7d\n        .container \x7b\n            max-width: 1400px;\n            margin: 0 auto;\n            background-color: white;\n            padding: 30px;\n            box-shadow: 0 2px 4px rgba(0,0,0,0.1);\n            border-radius: 8px;\n        \x7d\n        h1 \x7b\n            color: #2c3e50;\n            border-bottom: 3px solid #ff9914;\n            padding-bottom: 10px;\n            margin-bottom: 30px;\n        \x7d\n        h2 \x7b\n            color: #34495e;\n            margin-top: 40px;\n            margin-bottom: 20px;\n            border-left: 4px solid #ff9914;\n            padding-left: 15px;\n        \x7d\n        .info-box \x7b\n            background-color: #ecf0f1;\n            padding: 15px;\n            border-radius: 5px;\n            margin-bottom: 30px;\n        \x7d\n        .info-box p \x7b\n            margin: 5px 0;\n            color: #555;\n        \x7d\n        .chart-container \x7b\n            margin: 30px 0;\n            text-align: center;\n        \x7d\n        .chart-container img \x7b\n            max-width: 100%;\n            height: auto;\n            border: 1px solid #ddd;\n            border-radius: 5px;\n        \x7d\n        .stats-grid \x7b\n            display: grid;\n            grid-template-columns: repeat(auto-fit, minmax(300px, 1fr));\n            gap: 20px;\n            margin: 20px 0;\n        \x7d\n        .stat-card \x7b\n            background-color: #f8f9fa;\n            padding: 20px;\n            border-radius: 5px;\n            border-left: 4px solid #ff9914;\n        \x7d\n        .stat-card h3 \x7b\n            margin-top: 0;\n            color: #2c3e50;\n            font-size: 16px;\n            margin-bottom: 15px;\n        \x7d\n        .stat-item \x7b\n            display: flex;\n            justify-content: space-between;\n            padding: 8px 0;\n            border-bottom: 1px solid #e0e0e0;\n        \x7d\n        .stat-item:last-child \x7b\n            border-bottom: none;\n        \x7d\n        .stat-label \x7b\n            color: #555;\n            font-weight: 500;\n        \x7d\n        .stat-value \x7b\n            color: #2c3e50;\n            font-weight: 600;\n        \x7d\n        .highlight \x7b\n            font-size: 24px;\n            color: #27ae60;\n        \x7d\n        .highlight.negative \x7b\n            color: #e74c3c;\n        \x7d\n        table \x7b\n            width: 100%;\n            border-collapse: collapse;\n            margin: 20px 0;\n        \x7d\n        th, td \x7b\n            padding: 12px;\n            text-align: left;\n            border-bottom: 1px solid #ddd;\n        \x7d\n        th \x7b\n            background-color: #34495e;\n            color: white;\n            font-weight: 600;\n        \x7d\n        tr:hover \x7b\n            background-color: #f5f5f5;\n        \x7d\n        tr.buy \x7b\n            border-left: 3px solid #27ae60;\n        \x7d\n        tr.sell \x7b\n            border-left: 3px solid #e74c3c;\n        \x7d\n        .footer \x7b\n            margin-top: 50px;\n            padding-top: 20px;\n            border-top: 1px solid #ddd;\n            text-align: center;\n            color: #7f8c8d;\n            font-size: 14px;\n        \x7d\n"

/-- Template text from the start of the document to the first interpolation
(`{strategy_name}` in the title). -/
def htmlSeg1 : String :=
  "\n<!DOCTYPE html>\n<html>\n<head>\n    <meta charset=\"UTF-8\">\n    <meta name=\"viewport\" content=\"width=device-width, initial-scale=1.0\">\n    <title>Backtest Report - "

/-- Template text between the title and the info-box strategy name. -/
def htmlSeg2 : String :=
  "</title>\n    <style>\n" ++ reportCss ++
  "    </style>\n</head>\n<body>\n    <div class=\"container\">\n        <h1>📊 Backtest Report</h1>\n        \n        <div class=\"info-box\">\n            <p><strong>Strategy:</strong> "

/-- Template text between the strategy name and the run time. -/
def htmlSeg3 : String :=
  "</p>\n            <p><strong>Period:</strong> 2016-01-02 to 2021-01-02</p>\n            <p><strong>Run Time:</strong> "

/-- Template text between the run time and the equity chart payload. -/
def htmlSeg4 : String :=
  "</p>\n            <p><strong>Status:</strong> Completed</p>\n        </div>\n        \n        <h2>📈 Equity Curve</h2>\n        <div class=\"chart-container\">\n            <img src=\""

/-- Template text between the equity and drawdown chart payloads. -/
def htmlSeg5 : String :=
  "\" alt=\"Equity Curve\">\n        </div>\n        \n        <h2>📉 Drawdown</h2>\n        <div class=\"chart-container\">\n            <img src=\""

/-- Template text between the drawdown chart and the performance stats. -/
def htmlSeg6 : String :=
  "\" alt=\"Drawdown\">\n        </div>\n        \n        <h2>📊 Key Performance Metrics</h2>\n        <div class=\"stats-grid\">\n            <div class=\"stat-card\">\n                <h3>Performance Statistics</h3>\n                "

/-- Template text between the performance and risk stat cards. -/
def htmlSeg7 : String :=
  "\n            </div>\n            \n            <div class=\"stat-card\">\n                <h3>Risk Statistics</h3>\n                "

/-- Template text between the risk and trade stat cards. -/
def htmlSeg8 : String :=
  "\n            </div>\n            \n            <div class=\"stat-card\">\n                <h3>Trade Statistics</h3>\n                "

/-- Template text between the trade stat card and the all-statistics rows. -/
def htmlSeg9 : String :=
  "\n            </div>\n        </div>\n        \n        <h2>📋 All Statistics</h2>\n        <table>\n            <thead>\n                <tr>\n                    <th>Metric</th>\n                    <th>Value</th>\n                </tr>\n            </thead>\n            <tbody>\n                "

/-- Template text between the all-statistics rows and `{trades_html}`. -/
def htmlSeg10 : String :=
  "\n            </tbody>\n        </table>\n        \n        "

/-- Template text between `{trades_html}` and the generation timestamp. -/
def htmlSeg11 : String :=
  "\n        \n        <div class=\"footer\">\n            <p>Generated with Lean Algorithmic Trading Engine | "

/-- Template text from the generation timestamp to the end of the document. -/
def htmlSeg12 : String :=
  "</p>\n        </div>\n    </div>\n</body>\n</html>\n"

/-- `html_content` of `generate_html_report`: the full interpolated document.
`now` is the string `datetime.now().strftime('%Y-%m-%d %H:%M:%S')` evaluates
to — the report content depends on the wall clock through it. -/
def generate_html_report_content (data : BacktestResult)
    (equityChartB64 drawdownChartB64 : String) (trades : List OrderEvent)
    (resultsFolder : Option String) (now : String) : String :=
  let stats := data.statistics
  let strategyName := resolveStrategyName data resultsFolder
  let runTimeStr :=
    match resultsFolder with
    | some folder => deriveRunTime (folderBaseName folder)
    | none => "N/A"
  let buckets := categorizeStats stats
  htmlSeg1 ++ strategyName ++ htmlSeg2 ++ strategyName ++ htmlSeg3 ++
    runTimeStr ++ htmlSeg4 ++ equityChartB64 ++ htmlSeg5 ++ drawdownChartB64 ++
    htmlSeg6 ++ String.join (buckets.1.map statItemHtml) ++ htmlSeg7 ++
    String.join (buckets.2.1.map statItemHtml) ++ htmlSeg8 ++
    String.join (buckets.2.2.map statItemHtml) ++ htmlSeg9 ++
    String.join (stats.map statRowHtml) ++ htmlSeg10 ++ tradesHtmlOf trades ++
    htmlSeg11 ++ now ++ htmlSeg12

/-! ## Writing the report and the main pipeline -/

/-- File-system state: a mapping of path to content. -/
def FileState := List (String × String)

/-- Write `content` at `path`, overwriting any existing file there
(`open(output_file, 'w')` truncates). -/
def writeFile (fstate : FileState) (path content : String) : FileState :=
  (path, content) :: List.filter (fun p => p.1 ≠ path) fstate

/-- Content currently stored at `path`. -/
def readFile (fstate : FileState) (path : String) : Option String :=
  lookupKey fstate path

/-- `generate_html_report`: build the document and write it to
`output_file`. -/
def generate_html_report (data : BacktestResult)
    (equityChartB64 drawdownChartB64 : String) (trades : List OrderEvent)
    (outputFile : String) (resultsFolder : Option String) (now : String)
    (fstate : FileState) : FileState :=
  writeFile fstate outputFile
    (generate_html_report_content data equityChartB64 drawdownChartB64 trades
      resultsFolder now)

/-- The body of `main` after a results document has been located and loaded:
extract both series (uncaught exceptions abort the run), render both charts,
load the trade list, then compose and write the report.  The chart renderers
(matplotlib rasterization + base64, pure functions of the points) are passed
as parameters.  On the error path nothing is written: the returned state is
only produced on full success. -/
def runPipeline (renderEquity renderDrawdown : List (ℚ × ℚ) → String)
    (data : BacktestResult) (src : OrderEventsSource)
    (resultsFolder : String) (now : String) (fstate : FileState) :
    Except ExtractError FileState :=
  match extract_equity_series data with
  | .error e => .error e
  | .ok equityPts =>
    match extract_drawdown_series data with
    | .error e => .error e
    | .ok drawdownPts =>
      let equityChartB64 := renderEquity equityPts
      let drawdownChartB64 := renderDrawdown drawdownPts
      let trades := load_order_events src
      .ok (generate_html_report data equityChartB64 drawdownChartB64 trades
        (resultsFolder ++ "/report.html") (some resultsFolder) now fstate)

/-! ## Sample inputs used by witnesses and counterexamples -/

/-- A filled order event (concrete sample). -/
def sampleFilledEvent : OrderEvent :=
  { orderId := 1, time := 1767305009, status := some "filled",
    symbolValue := some "XOM", symbol := none, direction := "buy",
    fillQuantity := 10, fillPrice := 50, orderFeeAmount := some 1 }

/-- A canceled order event (concrete sample). -/
def sampleCanceledEvent : OrderEvent :=
  { orderId := 2, time := 1767305010, status := some "canceled",
    symbolValue := some "XOM", symbol := none, direction := "sell",
    fillQuantity := 10, fillPrice := 50, orderFeeAmount := none }

/-! ## Claims -/

/-- C1, as the spec states it, is false: the name "Sharpe Ratio" contains the
formatting keyword "ratio", so `format_stat_value` takes the percentage
branch, and 1.2345 renders as "123.45%", not as the plain-number "1.2345". -/
theorem sharpe_format_claim_cx :
    format_stat_value "Sharpe Ratio" (.num (12345/10000)) = .str "123.45%" ∧
    PyVal.str "123.45%" ≠ PyVal.str "1.2345" := by
  constructor
  · with_unfolding_all decide
  · decide

/-- C1 (amended): for the statistic named "Sharpe Ratio", any nonzero numeric
value v is formatted by the percentage rule — v·100 to two decimal places with
a "%" suffix — because the lowercased name contains "ratio"; in particular
1.2345 formats to "123.45%". -/
theorem sharpe_format_percent_rule (v : ℚ) (hv : v ≠ 0) :
    format_stat_value "Sharpe Ratio" (.num v) =
      .str (renderFixed false 2 (v * 100) ++ "%") := by
  have hk : containsAny "Sharpe Ratio" pctKeywords = true := by
    with_unfolding_all decide
  simp [format_stat_value, hk, PyVal.truthy, hv, pyFloat]

/-- Witness for C1 (amended) at the claim's concrete input. -/
theorem sharpe_format_percent_rule_witness :
    (12345/10000 : ℚ) ≠ 0 ∧
    format_stat_value "Sharpe Ratio" (.num (12345/10000)) = .str "123.45%" := by
  refine ⟨by norm_num, ?_⟩
  rw [sharpe_format_percent_rule (12345/10000) (by norm_num)]
  with_unfolding_all decide

/-- C4: a statistic whose name contains one of the percentage keywords
(rate/return/ratio/drawdown/variance/turnover/deviation, case-insensitive)
formats a nonzero numeric value v as v·100 to two decimal places with a "%"
suffix, and a zero or empty value as "0.00%" — never an error. -/
theorem percentage_metric_format (key : String) (v : ℚ)
    (hk : containsAny key pctKeywords = true) :
    (v ≠ 0 → format_stat_value key (.num v) =
        .str (renderFixed false 2 (v * 100) ++ "%")) ∧
    format_stat_value key (.num 0) = .str "0.00%" ∧
    format_stat_value key (.str "") = .str "0.00%" := by
  have h0 : ("" : String).isEmpty = true := rfl
  refine ⟨fun hv => ?_, ?_, ?_⟩
  · simp [format_stat_value, hk, PyVal.truthy, hv, pyFloat]
  · simp [format_stat_value, hk, PyVal.truthy]
  · simp [format_stat_value, hk, PyVal.truthy, h0]

/-- Witness for C4: "Win Rate" with 0.55 gives "55.00%"; with 0 or the empty
value it gives "0.00%". -/
theorem percentage_metric_format_witness :
    containsAny "Win Rate" pctKeywords = true ∧
    format_stat_value "Win Rate" (.num (11/20)) = .str "55.00%" ∧
    format_stat_value "Win Rate" (.num 0) = .str "0.00%" ∧
    format_stat_value "Win Rate" (.str "") = .str "0.00%" := by
  have h := percentage_metric_format "Win Rate" (11/20)
    (by with_unfolding_all decide)
  refine ⟨by with_unfolding_all decide, ?_, h.2.1, h.2.2⟩
  rw [h.1 (by norm_num)]
  with_unfolding_all decide

/-- C5, as the spec states it, is false: the empty string fails numeric
coercion (`float("")` raises), yet for a percentage-classified statistic the
formatter returns "0.00%" rather than the value unchanged. -/
theorem coercion_passthrough_cx :
    pyFloat (.str "") = none ∧
    format_stat_value "Win Rate" (.str "") = .str "0.00%" ∧
    format_stat_value "Win Rate" (.str "") ≠ .str "" := by
  refine ⟨by decide, by with_unfolding_all decide, by with_unfolding_all decide⟩

/-- C5 (amended): a value that fails numeric coercion passes through
unchanged, except that a falsy value (the empty string) under a
percentage-classified name yields "0.00%"; no input raises. -/
theorem coercion_passthrough_amended (key : String) (v : PyVal)
    (h : pyFloat v = none) :
    format_stat_value key v =
      (if containsAny key pctKeywords && !v.truthy then .str "0.00%" else v) := by
  unfold format_stat_value
  cases hp : containsAny key pctKeywords
  · cases hc : containsAny key currencyKeywords <;> simp [hp, hc, h]
  · cases ht : v.truthy <;> simp [hp, ht, h]

/-- Witness for C5 (amended): a truthy non-coercible value passes through. -/
theorem coercion_passthrough_amended_witness :
    pyFloat (.str "abc") = none ∧
    format_stat_value "Win Rate" (.str "abc") = .str "abc" := by
  refine ⟨by decide, ?_⟩
  rw [coercion_passthrough_amended "Win Rate" (.str "abc") (by decide)]
  with_unfolding_all decide

/-- C3: for every order-events list, the trade filter returns exactly the
subsequence of entries with status "filled": a sublist of the input, whose
members are precisely the filled entries, with per-entry multiplicity
preserved (no deduplication). -/
theorem trade_filter_exact_subsequence (events : List OrderEvent) :
    (load_order_events (.events events)).Sublist events ∧
    (∀ e, e ∈ load_order_events (.events events) ↔
        e ∈ events ∧ e.status = some "filled") ∧
    (∀ e, e.status = some "filled" →
        (load_order_events (.events events)).count e = events.count e) := by
  refine ⟨?_, fun e => ?_, fun e he => ?_⟩
  · exact List.filter_sublist events
  · simp [load_order_events, filterFilledOrders, List.mem_filter]
  · simp only [load_order_events, filterFilledOrders]
    exact List.count_filter (by simp [he])

/-- Witness for C3 at a concrete two-event list. -/
theorem trade_filter_exact_subsequence_witness :
    (load_order_events
        (.events [sampleFilledEvent, sampleCanceledEvent])).Sublist
      [sampleFilledEvent, sampleCanceledEvent] ∧
    (sampleFilledEvent ∈
        load_order_events (.events [sampleFilledEvent, sampleCanceledEvent]) ↔
      sampleFilledEvent ∈ [sampleFilledEvent, sampleCanceledEvent] ∧
        sampleFilledEvent.status = some "filled") ∧
    (load_order_events
        (.events [sampleFilledEvent, sampleCanceledEvent])).count
        sampleFilledEvent =
      [sampleFilledEvent, sampleCanceledEvent].count sampleFilledEvent :=
  ⟨(trade_filter_exact_subsequence _).1,
   (trade_filter_exact_subsequence _).2.1 sampleFilledEvent,
   (trade_filter_exact_subsequence _).2.2 sampleFilledEvent (by decide)⟩

/-- Keys of a bucket are exactly the statistics keys the classifier sends to
that bucket. -/
theorem mem_keys_classFilter (stats : List (String × PyVal)) (b : StatBucket)
    (k : String) :
    (k ∈ (((stats.filter fun kv => decide (classifyStat kv.1 = b)).map
        fun kv => (kv.1, format_stat_value kv.1 kv.2)).map Prod.fst)) ↔
      k ∈ stats.map Prod.fst ∧ classifyStat k = b := by
  simp only [List.map_map, List.mem_map, List.mem_filter, Function.comp,
    decide_eq_true_eq]
  constructor
  · rintro ⟨kv, ⟨hm, hc⟩, rfl⟩
    exact ⟨⟨kv, hm, rfl⟩, hc⟩
  · rintro ⟨⟨kv, hm, rfl⟩, hc⟩
    exact ⟨kv, ⟨hm, hc⟩, rfl⟩

/-- The three classifier filters cover each entry exactly once. -/
theorem classFilter_length (stats : List (String × PyVal)) :
    (stats.filter fun kv => decide (classifyStat kv.1 = .performance)).length +
      (stats.filter fun kv => decide (classifyStat kv.1 = .risk)).length +
      (stats.filter fun kv => decide (classifyStat kv.1 = .trade)).length =
      stats.length := by
  induction stats with
  | nil => rfl
  | cons kv rest ih =>
    cases h : classifyStat kv.1 <;> simp [List.filter_cons, h] <;> omega

/-- C10: the buckets of `categorizeStats` partition the statistics mapping —
membership in each bucket is exactly classification to it, the buckets are
pairwise disjoint, their union covers the mapping, sizes add up, each bucket
is a subsequence of the formatted mapping (insertion order preserved) — and
"Sharpe Ratio" is classified Risk while matching the percentage formatting
keywords (classification and formatting use distinct keyword lists). -/
theorem stat_buckets_partition (stats : List (String × PyVal)) :
    (∀ k, k ∈ (categorizeStats stats).1.map Prod.fst ↔
        k ∈ stats.map Prod.fst ∧ classifyStat k = .performance) ∧
    (∀ k, k ∈ (categorizeStats stats).2.1.map Prod.fst ↔
        k ∈ stats.map Prod.fst ∧ classifyStat k = .risk) ∧
    (∀ k, k ∈ (categorizeStats stats).2.2.map Prod.fst ↔
        k ∈ stats.map Prod.fst ∧ classifyStat k = .trade) ∧
    (∀ k, ¬(k ∈ (categorizeStats stats).1.map Prod.fst ∧
          k ∈ (categorizeStats stats).2.1.map Prod.fst) ∧
        ¬(k ∈ (categorizeStats stats).1.map Prod.fst ∧
          k ∈ (categorizeStats stats).2.2.map Prod.fst) ∧
        ¬(k ∈ (categorizeStats stats).2.1.map Prod.fst ∧
          k ∈ (categorizeStats stats).2.2.map Prod.fst)) ∧
    (∀ k, k ∈ stats.map Prod.fst ↔
        k ∈ (categorizeStats stats).1.map Prod.fst ∨
        k ∈ (categorizeStats stats).2.1.map Prod.fst ∨
        k ∈ (categorizeStats stats).2.2.map Prod.fst) ∧
    ((categorizeStats stats).1.length + (categorizeStats stats).2.1.length +
        (categorizeStats stats).2.2.length = stats.length) ∧
    (categorizeStats stats).1.Sublist
        (stats.map fun kv => (kv.1, format_stat_value kv.1 kv.2)) ∧
    (categorizeStats stats).2.1.Sublist
        (stats.map fun kv => (kv.1, format_stat_value kv.1 kv.2)) ∧
    (categorizeStats stats).2.2.Sublist
        (stats.map fun kv => (kv.1, format_stat_value kv.1 kv.2)) ∧
    classifyStat "Sharpe Ratio" = .risk ∧
    containsAny "Sharpe Ratio" pctKeywords = true ∧
    containsAny "Sharpe Ratio" perfKeywords = false := by
  refine ⟨fun k => mem_keys_classFilter stats .performance k,
    fun k => mem_keys_classFilter stats .risk k,
    fun k => mem_keys_classFilter stats .trade k,
    fun k => ?_, fun k => ?_, ?_, ?_, ?_, ?_, ?_, ?_, ?_⟩
  · refine ⟨fun hk => ?_, fun hk => ?_, fun hk => ?_⟩
    · have a1 := (mem_keys_classFilter stats .performance k).1 hk.1
      have a2 := (mem_keys_classFilter stats .risk k).1 hk.2
      exact absurd (a1.2.symm.trans a2.2) (by decide)
    · have a1 := (mem_keys_classFilter stats .performance k).1 hk.1
      have a2 := (mem_keys_classFilter stats .trade k).1 hk.2
      exact absurd (a1.2.symm.trans a2.2) (by decide)
    · have a1 := (mem_keys_classFilter stats .risk k).1 hk.1
      have a2 := (mem_keys_classFilter stats .trade k).1 hk.2
      exact absurd (a1.2.symm.trans a2.2) (by decide)
  · constructor
    · intro hk
      cases hc : classifyStat k
      · exact Or.inl ((mem_keys_classFilter stats .performance k).2 ⟨hk, hc⟩)
      · exact Or.inr (Or.inl ((mem_keys_classFilter stats .risk k).2 ⟨hk, hc⟩))
      · exact Or.inr (Or.inr ((mem_keys_classFilter stats .trade k).2 ⟨hk, hc⟩))
    · rintro (h | h | h)
      · exact ((mem_keys_classFilter stats .performance k).1 h).1
      · exact ((mem_keys_classFilter stats .risk k).1 h).1
      · exact ((mem_keys_classFilter stats .trade k).1 h).1
  · simpa [categorizeStats] using classFilter_length stats
  · exact (List.filter_sublist stats).map _
  · exact (List.filter_sublist stats).map _
  · exact (List.filter_sublist stats).map _
  · with_unfolding_all decide
  · with_unfolding_all decide
  · with_unfolding_all decide

/-- Witness for C10 at a concrete three-statistic mapping. -/
theorem stat_buckets_partition_witness :
    ("Sharpe Ratio" ∈
        (categorizeStats [("Net Profit", PyVal.str "1.2"),
          ("Sharpe Ratio", PyVal.num (12345/10000)),
          ("Total Orders", PyVal.str "5")]).2.1.map Prod.fst ↔
      "Sharpe Ratio" ∈
          ([("Net Profit", PyVal.str "1.2"),
            ("Sharpe Ratio", PyVal.num (12345/10000)),
            ("Total Orders", PyVal.str "5")].map Prod.fst) ∧
        classifyStat "Sharpe Ratio" = .risk) ∧
    classifyStat "Sharpe Ratio" = .risk ∧
    containsAny "Sharpe Ratio" pctKeywords = true :=
  ⟨(stat_buckets_partition [("Net Profit", PyVal.str "1.2"),
      ("Sharpe Ratio", PyVal.num (12345/10000)),
      ("Total Orders", PyVal.str "5")]).2.1 "Sharpe Ratio",
   (stat_buckets_partition []).2.2.2.2.2.2.2.2.2.1,
   (stat_buckets_partition []).2.2.2.2.2.2.2.2.2.2.1⟩

/-- C6: a folder name `{StrategyName}-{YYYYMMDD}-{HHMMSS}` — 8 date digits and
6 time digits forming a valid calendar date-time with a four-significant-digit
year — yields the strategy name by stripping the 16-character suffix, and the
run time rendered as `"YYYY-MM-DD HH:MM:SS"`. -/
theorem folder_name_derivation (strat : String)
    (a b c d e f g h p q r s t u : Char)
    (hd : [a, b, c, d, e, f, g, h, p, q, r, s, t, u].all Char.isDigit = true)
    (hv : validDateTime (digitsToNat [a, b, c, d]) (digitsToNat [e, f])
        (digitsToNat [g, h]) (digitsToNat [p, q]) (digitsToNat [r, s])
        (digitsToNat [t, u]) = true)
    (_hy : 1000 ≤ digitsToNat [a, b, c, d]) :
    stripTimestampSuffix
        (strat ++ String.mk ['-', a, b, c, d, e, f, g, h, '-', p, q, r, s, t, u]) =
      strat ∧
    deriveRunTime
        (strat ++ String.mk ['-', a, b, c, d, e, f, g, h, '-', p, q, r, s, t, u]) =
      String.mk [a, b, c, d] ++ "-" ++ String.mk [e, f] ++ "-" ++
        String.mk [g, h] ++ " " ++ String.mk [p, q] ++ ":" ++
        String.mk [r, s] ++ ":" ++ String.mk [t, u] := by
  have hcs : (strat ++
        String.mk ['-', a, b, c, d, e, f, g, h, '-', p, q, r, s, t, u]).toList =
      strat.data ++ ['-', a, b, c, d, e, f, g, h, '-', p, q, r, s, t, u] :=
    String.data_append _ _
  have hlen : (strat.data ++
        ['-', a, b, c, d, e, f, g, h, '-', p, q, r, s, t, u]).length - 16 =
      strat.data.length := by
    simp [List.length_append]
  have hdrop : (strat.data ++
        ['-', a, b, c, d, e, f, g, h, '-', p, q, r, s, t, u]).drop
        strat.data.length =
      ['-', a, b, c, d, e, f, g, h, '-', p, q, r, s, t, u] :=
    List.drop_left _ _
  have htake : (strat.data ++
        ['-', a, b, c, d, e, f, g, h, '-', p, q, r, s, t, u]).take
        strat.data.length = strat.data :=
    List.take_left _ _
  have hmatch : tsSuffixMatch ['-', a, b, c, d, e, f, g, h, '-', p, q, r, s, t, u] =
      [a, b, c, d, e, f, g, h, p, q, r, s, t, u].all Char.isDigit := rfl
  constructor
  · simp only [stripTimestampSuffix, hcs, hlen, hdrop, htake, hmatch, hd,
      if_true]
  · simp only [deriveRunTime, hcs, hlen, hdrop, hmatch, hd, if_true]
    simp only [show (['-', a, b, c, d, e, f, g, h, '-', p, q, r, s, t,
        u].drop 1).take 8 = [a, b, c, d, e, f, g, h] from rfl,
      show (['-', a, b, c, d, e, f, g, h, '-', p, q, r, s, t, u].drop 10) =
        [p, q, r, s, t, u] from rfl]
    simp only [show ([a, b, c, d, e, f, g, h] : List Char).take 4 =
        [a, b, c, d] from rfl,
      show (([a, b, c, d, e, f, g, h] : List Char).drop 4).take 2 =
        [e, f] from rfl,
      show ([a, b, c, d, e, f, g, h] : List Char).drop 6 = [g, h] from rfl,
      show ([p, q, r, s, t, u] : List Char).take 2 = [p, q] from rfl,
      show (([p, q, r, s, t, u] : List Char).drop 2).take 2 = [r, s] from rfl,
      show ([p, q, r, s, t, u] : List Char).drop 4 = [t, u] from rfl, hv,
      if_true]

/-- Witness for C6 at the spec's example folder name. -/
theorem folder_name_derivation_witness :
    stripTimestampSuffix "BuyAndHold-20260101-220149" = "BuyAndHold" ∧
    deriveRunTime "BuyAndHold-20260101-220149" = "2026-01-01 22:01:49" := by
  have heq : ("BuyAndHold" : String) ++
      String.mk ['-', '2', '0', '2', '6', '0', '1', '0', '1', '-', '2', '2',
        '0', '1', '4', '9'] = "BuyAndHold-20260101-220149" := by decide
  have h := folder_name_derivation "BuyAndHold" '2' '0' '2' '6' '0' '1' '0' '1'
    '2' '2' '0' '1' '4' '9' (by decide) (by decide) (by decide)
  rw [heq] at h
  refine ⟨h.1, h.2.trans (by decide)⟩

/-- Result document with a present-but-empty `strategyName` key. -/
def emptyNameData : BacktestResult :=
  { statistics := [], charts := [], algorithmConfiguration := ⟨some "CfgName"⟩,
    strategyName := some (.str ""), strategyNameDashed := none }

/-- C9, as the spec states it, is false: with the explicit strategy-name field
present (holding the empty string), the displayed name is not that field's
value but the folder-derived name — the chain tests truthiness, not presence. -/
theorem strategy_name_presence_cx :
    emptyNameData.strategyName = some (.str "") ∧
    resolveStrategyName emptyNameData
        (some "Results/BuyAndHold-20260101-220149") = "BuyAndHold" ∧
    ("BuyAndHold" : String) ≠ "" := by
  refine ⟨rfl, by decide, by decide⟩

/-- C9 (amended): the displayed strategy name is the first non-empty value in
the chain — the explicit strategy-name field of the document, else the name
derived from the results folder (when a folder is given), else the
algorithm-configuration name (used even when empty), else "N/A" when that key
is absent. -/
theorem strategy_name_resolution (data : BacktestResult)
    (folder : Option String) :
    resolveStrategyName data folder =
      (let explicit := (explicitStrategyField data).getD ""
       let derived :=
         match folder with
         | some f => stripTimestampSuffix (folderBaseName f)
         | none => ""
       if explicit ≠ "" then explicit
       else if derived ≠ "" then derived
       else (data.algorithmConfiguration.name).getD "N/A") := by
  unfold resolveStrategyName
  cases he : explicitStrategyField data with
  | none =>
    cases folder with
    | none =>
      cases hn : data.algorithmConfiguration.name <;>
        simp [falsyOptStr, hn, Option.getD]
    | some f =>
      by_cases hd : stripTimestampSuffix (folderBaseName f) = ""
      · cases hn : data.algorithmConfiguration.name <;>
          simp [falsyOptStr, hd, hn, String.isEmpty_iff, Option.getD]
      · simp [falsyOptStr, hd, String.isEmpty_iff, Option.getD]
  | some v =>
    have h0 : ("" : String).isEmpty = true := rfl
    by_cases hv : v = ""
    · subst hv
      cases folder with
      | none =>
        cases hn : data.algorithmConfiguration.name <;>
          simp [falsyOptStr, hn, h0, Option.getD]
      | some f =>
        by_cases hd : stripTimestampSuffix (folderBaseName f) = ""
        · cases hn : data.algorithmConfiguration.name <;>
            simp [falsyOptStr, hd, hn, h0, String.isEmpty_iff, Option.getD]
        · simp [falsyOptStr, hd, h0, String.isEmpty_iff, Option.getD]
    · have hne : v.isEmpty = false := by
        cases hh : v.isEmpty
        · rfl
        · exact absurd (String.isEmpty_iff v |>.1 hh) hv
      cases folder <;> simp [falsyOptStr, hne, hv, Option.getD]

/-- C8: when the results document has no "Strategy Equity" chart, extraction
fails with the schema-missing error, the pipeline aborts with that error, and
no file state is ever produced — no partial report is written. -/
theorem missing_equity_chart_fatal (data : BacktestResult)
    (h : lookupKey data.charts "Strategy Equity" = none)
    (renderEquity renderDrawdown : List (ℚ × ℚ) → String)
    (src : OrderEventsSource) (folder now : String) (fstate : FileState) :
    extract_equity_series data = .error (.missingChart "Strategy Equity") ∧
    runPipeline renderEquity renderDrawdown data src folder now fstate =
      .error (.missingChart "Strategy Equity") ∧
    ∀ fstate2, runPipeline renderEquity renderDrawdown data src folder now
        fstate ≠ .ok fstate2 := by
  have h1 : extract_equity_series data =
      .error (.missingChart "Strategy Equity") := by
    simp [extract_equity_series, h]
  refine ⟨h1, ?_, ?_⟩
  · simp [runPipeline, h1]
  · intro fstate2
    simp [runPipeline, h1]

/-- Result document lacking the "Strategy Equity" chart. -/
def noEquityChartData : BacktestResult :=
  { statistics := [("Sharpe Ratio", .str "1.2345")],
    charts := [("Drawdown", ⟨[("Equity Drawdown", ⟨[[0, 0]]⟩)]⟩)],
    algorithmConfiguration := ⟨some "CfgName"⟩,
    strategyName := none, strategyNameDashed := none }

/-- Witness for C8 at a concrete document without the equity chart. -/
theorem missing_equity_chart_fatal_witness :
    extract_equity_series noEquityChartData =
      .error (.missingChart "Strategy Equity") ∧
    runPipeline (fun _ => "E") (fun _ => "D") noEquityChartData .missing
        "Results/X" "2026-01-01 00:00:00" [] =
      .error (.missingChart "Strategy Equity") ∧
    runPipeline (fun _ => "E") (fun _ => "D") noEquityChartData .missing
        "Results/X" "2026-01-01 00:00:00" [] ≠ .ok [] :=
  ⟨(missing_equity_chart_fatal noEquityChartData (by decide) (fun _ => "E")
      (fun _ => "D") .missing "Results/X" "2026-01-01 00:00:00" []).1,
   (missing_equity_chart_fatal noEquityChartData (by decide) (fun _ => "E")
      (fun _ => "D") .missing "Results/X" "2026-01-01 00:00:00" []).2.1,
   (missing_equity_chart_fatal noEquityChartData (by decide) (fun _ => "E")
      (fun _ => "D") .missing "Results/X" "2026-01-01 00:00:00" []).2.2 []⟩

/-- The part of the no-trade placeholder block before the message text. -/
def noTradePrefix : String :=
  "\n        <h2>📋 All Trades</h2>\n        <p style=\"color: #7f8c8d; text-align: center; padding: 20px;\">"

/-- The part of the no-trade placeholder block after the message text. -/
def noTradeClose : String := "</p>\n"

/-- C7: a missing or unparsable order-events file degrades to an empty trade
list, and the composed report still renders, containing the "No trade data
available" placeholder in place of the trade ledger. -/
theorem degraded_order_events_report (src : OrderEventsSource)
    (hsrc : src = .missing ∨ src = .unparsable)
    (data : BacktestResult) (eqc ddc : String) (folder : Option String)
    (now : String) :
    load_order_events src = [] ∧
    ∃ pre post,
      generate_html_report_content data eqc ddc (load_order_events src) folder
          now = pre ++ "No trade data available" ++ post := by
  have hempty : load_order_events src = [] := by
    rcases hsrc with h | h <;> subst h <;> rfl
  refine ⟨hempty, ?_⟩
  rw [hempty]
  have htr : tradesHtmlOf [] =
      noTradePrefix ++ ("No trade data available" ++ noTradeClose) := by decide
  refine ⟨htmlSeg1 ++ resolveStrategyName data folder ++ htmlSeg2 ++
      resolveStrategyName data folder ++ htmlSeg3 ++
      (match folder with
       | some f => deriveRunTime (folderBaseName f)
       | none => "N/A") ++ htmlSeg4 ++ eqc ++ htmlSeg5 ++ ddc ++ htmlSeg6 ++
      String.join ((categorizeStats data.statistics).1.map statItemHtml) ++
      htmlSeg7 ++
      String.join ((categorizeStats data.statistics).2.1.map statItemHtml) ++
      htmlSeg8 ++
      String.join ((categorizeStats data.statistics).2.2.map statItemHtml) ++
      htmlSeg9 ++ String.join (data.statistics.map statRowHtml) ++ htmlSeg10 ++
      noTradePrefix,
    noTradeClose ++ htmlSeg11 ++ now ++ htmlSeg12, ?_⟩
  simp only [generate_html_report_content, htr, String.append_assoc]

/-- Concrete result document for the C7 witness. -/
def degradedSampleData : BacktestResult :=
  { statistics := [("Total Orders", .str "0")],
    charts := [], algorithmConfiguration := ⟨some "BuyAndHold"⟩,
    strategyName := none, strategyNameDashed := none }

/-- Witness for C7: a missing order-events file at a concrete document. -/
theorem degraded_order_events_report_witness :
    load_order_events .missing = [] ∧
    ∃ pre post,
      generate_html_report_content degradedSampleData "E" "D"
          (load_order_events .missing) none "2026-01-01 00:00:00" =
        pre ++ "No trade data available" ++ post :=
  degraded_order_events_report .missing (Or.inl rfl) degradedSampleData "E" "D"
    none "2026-01-01 00:00:00"

/-- Minimal result document for the C2 theorems. -/
def idemSampleData : BacktestResult :=
  { statistics := [], charts := [], algorithmConfiguration := ⟨some "S"⟩,
    strategyName := none, strategyNameDashed := none }

/-- The composed document determines the generation timestamp embedded in its
footer: equal outputs force equal timestamps. -/
theorem content_timestamp_injective (data : BacktestResult)
    (eqc ddc : String) (trades : List OrderEvent) (folder : Option String)
    (n1 n2 : String)
    (h : generate_html_report_content data eqc ddc trades folder n1 =
        generate_html_report_content data eqc ddc trades folder n2) :
    n1 = n2 := by
  have hd := congrArg String.data h
  simp only [generate_html_report_content, String.data_append,
    List.append_assoc] at hd
  repeat replace hd := List.append_cancel_left hd
  replace hd := List.append_cancel_right hd
  cases n1
  cases n2
  exact congrArg String.mk hd

/-- C2, as the spec states it, is false: the report footer embeds the
generation wall-clock time (`datetime.now()`), so a second run of the composer
from identical inputs at a later second overwrites the file with different
bytes. -/
theorem report_idempotence_cx :
    readFile
        (generate_html_report idemSampleData "E" "D" [] "report.html" none
          "2026-01-01 00:00:01"
          (generate_html_report idemSampleData "E" "D" [] "report.html" none
            "2026-01-01 00:00:00" []))
        "report.html" ≠
      readFile
        (generate_html_report idemSampleData "E" "D" [] "report.html" none
          "2026-01-01 00:00:00" []) "report.html" := by
  have ha : readFile
      (generate_html_report idemSampleData "E" "D" [] "report.html" none
        "2026-01-01 00:00:01"
        (generate_html_report idemSampleData "E" "D" [] "report.html" none
          "2026-01-01 00:00:00" [])) "report.html" =
      some (generate_html_report_content idemSampleData "E" "D" [] none
        "2026-01-01 00:00:01") := by
    simp [generate_html_report, readFile, writeFile, lookupKey]
  have hb : readFile
      (generate_html_report idemSampleData "E" "D" [] "report.html" none
        "2026-01-01 00:00:00" []) "report.html" =
      some (generate_html_report_content idemSampleData "E" "D" [] none
        "2026-01-01 00:00:00") := by
    simp [generate_html_report, readFile, writeFile, lookupKey]
  rw [ha, hb]
  intro hsome
  have hc := Option.some.inj hsome
  have hnow := content_timestamp_injective idemSampleData "E" "D" [] none
    "2026-01-01 00:00:01" "2026-01-01 00:00:00" hc
  exact absurd hnow (by decide)

/-- C2 (amended): the composer is deterministic in its inputs plus the
generation timestamp: re-composing from the same inputs and the same
timestamp to the same path overwrites the prior file with byte-identical
content (the write unconditionally replaces the file at the target path). -/
theorem report_rewrite_same_timestamp (data : BacktestResult)
    (eqc ddc : String) (trades : List OrderEvent) (outputFile : String)
    (folder : Option String) (now : String) (fstate : FileState) :
    readFile
        (generate_html_report data eqc ddc trades outputFile folder now
          (generate_html_report data eqc ddc trades outputFile folder now
            fstate)) outputFile =
      some (generate_html_report_content data eqc ddc trades folder now) ∧
    readFile
        (generate_html_report data eqc ddc trades outputFile folder now
          fstate) outputFile =
      some (generate_html_report_content data eqc ddc trades folder now) := by
  have hfind : ∀ (c : String) (fs : FileState),
      readFile (writeFile fs outputFile c) outputFile = some c := by
    intro c fs
    simp [readFile, writeFile, lookupKey]
  exact ⟨hfind _ _, hfind _ _⟩

end VisualizeBacktest
